import Mathlib

set_option linter.unusedVariables false

/-!
Verification development for the PySyft torch hook
(`src/syft/core/hooks/torch/hook.py`).  Python objects are shallowly
embedded: tensors carry their payload as `List Int`, dynamic attributes that
may be absent are `Option`-valued, and Python exceptions are modelled with
`Except`.  Components of the repository that live outside `hook.py`
(the type guard, the worker registry and the transport layer) are modelled
from the specification and marked as such in their doc comments.
-/

/- ### Fixed-precision codec (hook.py, `_hook_fixed_precision_methods`) -/

/-- Python exceptions raised by the fixed-precision methods.
`missingAttribute` is the generic `AttributeError` produced by accessing an
absent attribute; `mixedOperands` and `bothNonFixed` are the two explicit
`AttributeError` messages raised by the source. -/
inductive FPError where
  | overflow
  | mixedOperands
  | bothNonFixed
  | missingAttribute (name : String)
  deriving DecidableEq

/-- A torch tensor as seen by the fixed-precision methods: integer payload
plus the dynamic attributes `fixed_precision` and `precision`
(`none` models an absent attribute, so `hasattr` is `Option.isSome`). -/
structure FPTensor where
  data : List Int
  fixed_precision : Option Bool
  precision : Option Nat
  deriving DecidableEq

/-- Attribute access `t.precision`: raises `AttributeError` when absent. -/
def getPrecision (t : FPTensor) : Except FPError Nat :=
  match t.precision with
  | some p => Except.ok p
  | none => Except.error (FPError.missingAttribute "precision")

/-- Elementwise `old_mul` of two integer tensors (torch kernel). -/
def old_mul (xs ys : List Int) : List Int := List.zipWith (fun a b => a * b) xs ys

/-- Elementwise `old_add` (torch kernel). -/
def old_add (xs ys : List Int) : List Int := List.zipWith (fun a b => a + b) xs ys

/-- Elementwise `old_sub` (torch kernel). -/
def old_sub (xs ys : List Int) : List Int := List.zipWith (fun a b => a - b) xs ys

/-- Elementwise `old_div` on LongTensors: integer division truncating
toward zero, as in torch 0.3. -/
def old_div (xs ys : List Int) : List Int := List.zipWith (fun a b => Int.tdiv a b) xs ys

/-- Scalar `old_mul` (broadcasting a Python int). -/
def old_mul_scalar (xs : List Int) (m : Int) : List Int := xs.map (fun a => a * m)

/-- Scalar `old_div` (broadcasting a Python int), truncating toward zero. -/
def old_div_scalar (xs : List Int) (d : Int) : List Int := xs.map (fun a => Int.tdiv a d)

/-- `fixed_prec_mul` (hook.py lines 301-333).  Checks `hasattr` on both
operands, raises `OverflowError` when the precisions sum above 17, and
otherwise normalizes to the left operand's precision (or the right one's
when `norm_left_prec` is false). -/
def fixed_prec_mul (t u : FPTensor) (norm_left_prec : Bool) : Except FPError FPTensor :=
  if t.fixed_precision.isSome && u.fixed_precision.isSome then
    match getPrecision t with
    | Except.error e => Except.error e
    | Except.ok p1 =>
    match getPrecision u with
    | Except.error e => Except.error e
    | Except.ok p2 =>
    if p1 + p2 > 17 then
      Except.error FPError.overflow
    else if norm_left_prec then
      Except.ok { data := old_div_scalar (old_mul t.data u.data) ((10 : Int) ^ p2),
                  fixed_precision := some true, precision := some p1 }
    else
      Except.ok { data := old_div_scalar (old_mul t.data u.data) ((10 : Int) ^ p1),
                  fixed_precision := some true, precision := some p2 }
  else if (t.fixed_precision.isSome && !u.fixed_precision.isSome)
       || (!t.fixed_precision.isSome && u.fixed_precision.isSome) then
    Except.error FPError.mixedOperands
  else
    Except.error FPError.bothNonFixed

/-- `fixed_prec_add` (hook.py lines 335-366).  The source tests
`hasattr(self, 'fixed_precision')` twice (never the other operand), which
this embedding reproduces verbatim. -/
def fixed_prec_add (t u : FPTensor) : Except FPError FPTensor :=
  if t.fixed_precision.isSome && t.fixed_precision.isSome then
    match getPrecision t with
    | Except.error e => Except.error e
    | Except.ok p1 =>
    match getPrecision u with
    | Except.error e => Except.error e
    | Except.ok p2 =>
    if p1 > p2 then
      Except.ok { data := old_add t.data (old_mul_scalar u.data ((10 : Int) ^ (p1 - p2))),
                  fixed_precision := some true, precision := some p1 }
    else if p1 < p2 then
      Except.ok { data := old_add (old_mul_scalar t.data ((10 : Int) ^ (p2 - p1))) u.data,
                  fixed_precision := some true, precision := some p2 }
    else
      Except.ok { data := old_add t.data u.data,
                  fixed_precision := some true, precision := some p1 }
  else if (t.fixed_precision.isSome && !u.fixed_precision.isSome)
       || (!t.fixed_precision.isSome && u.fixed_precision.isSome) then
    Except.error FPError.mixedOperands
  else
    Except.error FPError.bothNonFixed

/-- `fixed_prec_sub` (hook.py lines 369-400), with the same duplicated
`hasattr(self, ...)` test as the source. -/
def fixed_prec_sub (t u : FPTensor) : Except FPError FPTensor :=
  if t.fixed_precision.isSome && t.fixed_precision.isSome then
    match getPrecision t with
    | Except.error e => Except.error e
    | Except.ok p1 =>
    match getPrecision u with
    | Except.error e => Except.error e
    | Except.ok p2 =>
    if p1 > p2 then
      Except.ok { data := old_sub t.data (old_mul_scalar u.data ((10 : Int) ^ (p1 - p2))),
                  fixed_precision := some true, precision := some p1 }
    else if p1 < p2 then
      Except.ok { data := old_sub (old_mul_scalar t.data ((10 : Int) ^ (p2 - p1))) u.data,
                  fixed_precision := some true, precision := some p2 }
    else
      Except.ok { data := old_sub t.data u.data,
                  fixed_precision := some true, precision := some p1 }
  else if (t.fixed_precision.isSome && !u.fixed_precision.isSome)
       || (!t.fixed_precision.isSome && u.fixed_precision.isSome) then
    Except.error FPError.mixedOperands
  else
    Except.error FPError.bothNonFixed

/-- `fixed_prec_div` (hook.py lines 402-435): rescales the operands to a
common precision, divides, and resets the result precision to 0.  Same
duplicated `hasattr(self, ...)` test as the source. -/
def fixed_prec_div (t u : FPTensor) : Except FPError FPTensor :=
  if t.fixed_precision.isSome && t.fixed_precision.isSome then
    match getPrecision t with
    | Except.error e => Except.error e
    | Except.ok p1 =>
    match getPrecision u with
    | Except.error e => Except.error e
    | Except.ok p2 =>
    if p1 < p2 then
      Except.ok { data := old_div (old_mul_scalar t.data ((10 : Int) ^ (p2 - p1))) u.data,
                  fixed_precision := some true, precision := some 0 }
    else if p1 = p2 then
      Except.ok { data := old_div t.data u.data,
                  fixed_precision := some true, precision := some 0 }
    else
      Except.ok { data := old_div t.data (old_mul_scalar u.data ((10 : Int) ^ (p1 - p2))),
                  fixed_precision := some true, precision := some 0 }
  else if (t.fixed_precision.isSome && !u.fixed_precision.isSome)
       || (!t.fixed_precision.isSome && u.fixed_precision.isSome) then
    Except.error FPError.mixedOperands
  else
    Except.error FPError.bothNonFixed

/-- hook.py line 436: `tensor_type.fixed_prec_trudiv = fixed_prec_div`. -/
def fixed_prec_trudiv (t u : FPTensor) : Except FPError FPTensor := fixed_prec_div t u

/-- Result of `_execute_fixed_precision_call`: either a fixed-precision
tensor or the fallback execution of the original method. -/
inductive FPCallResult where
  | tensor (t : FPTensor)
  | fallbackExec (methodName : String)
  deriving DecidableEq

/-- `_execute_fixed_precision_call` (hook.py lines 438-460): dispatches on
the intercepted method's name, falling back to the original method. -/
def _execute_fixed_precision_call (t : FPTensor) (methodName : String) (u : FPTensor)
    (norm_left_prec : Bool) : Except FPError FPCallResult :=
  if methodName = "mul" then (fixed_prec_mul t u norm_left_prec).map FPCallResult.tensor
  else if methodName = "div" then (fixed_prec_div t u).map FPCallResult.tensor
  else if methodName = "add" then (fixed_prec_add t u).map FPCallResult.tensor
  else if methodName = "sub" then (fixed_prec_sub t u).map FPCallResult.tensor
  else if methodName = "trudiv" then (fixed_prec_trudiv t u).map FPCallResult.tensor
  else Except.ok (FPCallResult.fallbackExec methodName)

/- ### Call router (hook.py, `method_router` / `function_router` /
`_execute_remote_call` / `_compile_command`) -/

/-- A tracked tensor or variable as seen by the router: registration
attributes assigned by `register_object`. -/
structure RTensor where
  id : Nat
  is_pointer : Bool
  owners : List Nat
  fixed_precision : Bool
  deriving DecidableEq

/-- A Python argument value: a tracked tensor/variable, a literal, or a
container of further arguments. -/
inductive PyArg where
  | tracked (t : RTensor)
  | lit (n : Int)
  | coll (xs : List PyArg)

mutual

/-- Modelled from the spec: `PythonEncoder.encode(..., retrieve_tensorvar=True)`
(in `syft.core.utils`, not under src/) recursively walks a value and collects
every tracked tensor/variable it contains. -/
def collectTensorvars : PyArg → List RTensor
  | PyArg.tracked t => [t]
  | PyArg.lit _ => []
  | PyArg.coll xs => collectTensorvarsList xs

/-- Recursive operand discovery over a list of arguments. -/
def collectTensorvarsList : List PyArg → List RTensor
  | [] => []
  | a :: rest => collectTensorvars a ++ collectTensorvarsList rest

end

/-- One intercepted invocation, as handed to `_compile_command`:
the `self` operand (when the call is a method call), positional arguments,
keyword arguments, and the operation name. -/
structure CallSpec where
  has_self : Bool
  selfArg : Option RTensor
  args : List PyArg
  kwargs : List (String × PyArg)
  command : String

/-- `_compile_command` (hook.py lines 543-567): the tensors and variables
discovered in `self`, `args` and `kwargs`. -/
def tensorvarsOf (c : CallSpec) : List RTensor :=
  (if c.has_self then
     (match c.selfArg with
      | some t => [t]
      | none => [])
   else []) ++ collectTensorvarsList c.args
    ++ collectTensorvarsList (c.kwargs.map Prod.snd)

/-- hook.py line 488: `has_remote = any(tensorvar.is_pointer ...)`. -/
def hasRemoteOperand (c : CallSpec) : Bool :=
  (tensorvarsOf c).any (fun t => t.is_pointer)

/-- hook.py lines 491-492: `owners = list(set(owner for tensorvar in
tensorvars for owner in tensorvar.owners))` — over ALL operands. -/
def allOwners (c : CallSpec) : List Nat :=
  (((tensorvarsOf c).map (fun t => t.owners)).flatten).dedup

/-- The union of owner sets of only the pointer operands — the quantity the
spec's transition rule describes. -/
def ptrOwners (c : CallSpec) : List Nat :=
  ((((tensorvarsOf c).filter (fun t => t.is_pointer)).map (fun t => t.owners)).flatten).dedup

/-- A message handed to the transport layer. -/
inductive TransportEvent where
  | sentCommand (worker : Nat) (command : String)
  deriving DecidableEq

/-- `NotImplementedError("MPC not yet implemented ...")` of hook.py
lines 534-537 (the spec's `UnsupportedMultiPartyError`). -/
inductive RemoteErr where
  | mpcNotImplemented
  deriving DecidableEq

/-- The pointer assembled from a worker's response to a dispatched command
(kept abstract here; pointer assembly itself is modelled separately). -/
inductive RemoteReply where
  | reply (worker : Nat) (command : String)
  deriving DecidableEq

/-- `_execute_remote_call` (hook.py lines 476-541): classifies the compiled
call, dispatches it to the single remote owner, or raises the multi-party
error.  The second component records every transport send performed. -/
def _execute_remote_call (c : CallSpec) :
    Except RemoteErr (Option RemoteReply × Bool × Bool) × List TransportEvent :=
  let has_remote := hasRemoteOperand c
  let owners := allOwners c
  let multiple_owners := decide (1 < owners.length)
  if has_remote && !multiple_owners then
    match owners with
    | [] => (Except.ok (none, has_remote, multiple_owners), [])
    | w :: _ =>
        (Except.ok (some (RemoteReply.reply w c.command), has_remote, multiple_owners),
         [TransportEvent.sentCommand w c.command])
  else if has_remote && multiple_owners then
    (Except.error RemoteErr.mpcNotImplemented, [])
  else
    (Except.ok (none, has_remote, multiple_owners), [])

/-- The outcome of one routed call. -/
inductive RouteResult where
  | localExec (methodName : String)
  | remotePtr (p : Option RemoteReply)
  | fixedPrecCall (methodName : String)
  deriving DecidableEq

/-- `method_router` (hook.py lines 197-217): routes on `self.is_pointer`
and `self.fixed_precision` alone. -/
def method_router (s : RTensor) (methodName : String) (args : List PyArg)
    (kwargs : List (String × PyArg)) :
    Except RemoteErr RouteResult × List TransportEvent :=
  if s.is_pointer then
    let r := _execute_remote_call ⟨true, some s, args, kwargs, methodName⟩
    (r.1.map (fun x => RouteResult.remotePtr x.1), r.2)
  else if s.fixed_precision then
    (Except.ok (RouteResult.fixedPrecCall methodName), [])
  else
    (Except.ok (RouteResult.localExec methodName), [])

/-- `function_router` (hook.py lines 219-251): classifies via
`_execute_remote_call` over all operands and falls back to local
execution. -/
def function_router (funcName : String) (args : List PyArg)
    (kwargs : List (String × PyArg)) :
    Except RemoteErr RouteResult × List TransportEvent :=
  let r := _execute_remote_call ⟨false, none, args, kwargs, funcName⟩
  match r.1 with
  | Except.error e => (Except.error e, r.2)
  | Except.ok (p, has_remote, multiple_owners) =>
      if has_remote && !multiple_owners then (Except.ok (RouteResult.remotePtr p), r.2)
      else (Except.ok (RouteResult.localExec funcName), r.2)

/-- Whether a routed call executed locally (`_execute_local_call`). -/
def isLocalRoute : Except RemoteErr RouteResult → Bool
  | Except.ok (RouteResult.localExec _) => true
  | _ => false

/- ### Type guard and serialization (hook.py serde; guard modelled from the
spec) -/

/-- The spec's `UntrustedTypeError` (the source's `TorchGuard` raises
`KeyError`, surfaced as `TypeError` in `_assemble_result_pointer`). -/
inductive GuardErr where
  | untrustedType (name : String)
  deriving DecidableEq

/-- Modelled from the spec: the Type Guard's fixed allow-list of known
tensor/variable concrete types (`TorchGuard` lives in
`syft/core/hooks/torch/guard.py`, which is not under src/); the names are
the `tensor_types` and `var_types` hooked in hook.py lines 99-112. -/
def allowed_types : List String :=
  ["torch.FloatTensor", "torch.DoubleTensor", "torch.HalfTensor",
   "torch.ByteTensor", "torch.CharTensor", "torch.ShortTensor",
   "torch.IntTensor", "torch.LongTensor",
   "torch.autograd.variable.Variable", "torch.nn.parameter.Parameter"]

/-- The variable types among the guarded types (hook.py line 112). -/
def var_types : List String :=
  ["torch.autograd.variable.Variable", "torch.nn.parameter.Parameter"]

/-- Modelled from the spec: `validate(name) -> Type`, failing with
`UntrustedTypeError` when `name` is not in the allow-list. -/
def types_guard (name : String) : Except GuardErr String :=
  if name ∈ allowed_types then Except.ok name
  else Except.error (GuardErr.untrustedType name)

/-- Observable events of object reconstruction: a successful guard
validation, a reflective constructor invocation with a type name, the
construction of a fixed internal placeholder, the automatic registration
performed by the hooked `__new__` (hook.py lines 721-734), a registration
under an explicit id, and the attachment of a gradient to a variable. -/
inductive Ev where
  | validated (name : String)
  | constructedObj (name : String)
  | constructedPlaceholder
  | autoRegistered
  | registered (id : Nat)
  | attachedGrad
  | attachedNoGrad
  deriving DecidableEq

/-- Registration attributes carried in a worker's structured response. -/
structure Registration where
  id : Nat
  owners : List Nat
  is_pointer : Bool
  deriving DecidableEq

/-- A structured worker response for one result value:
`(registration, torch_type, var_data, var_grad)`. -/
inductive PtrMsg where
  | mk (torch_type : String) (var_data : Option PtrMsg) (var_grad : Option PtrMsg)
      (registration : Registration)

/-- The locally assembled pointer object. -/
structure AObj where
  ttype : String
  id : Nat
  owners : List Nat
  is_pointer : Bool
  deriving DecidableEq

/-- `_assemble_result_pointer` (hook.py lines 569-600): validates the type
name, recursively assembles the nested `data` placeholder (`var_grad` is
ignored — the grad branch is commented out in the source), constructs the
placeholder object and registers it.  Returns the event trace alongside the
result. -/
def _assemble_result_pointer : PtrMsg → List Ev × Except GuardErr AObj
  | PtrMsg.mk tt var_data _var_grad reg =>
    match types_guard tt with
    | Except.error e => ([], Except.error e)
    | Except.ok vtt =>
      match var_data with
      | some dm =>
        let r := _assemble_result_pointer dm
        (match r.2 with
         | Except.error e => (Ev.validated vtt :: r.1, Except.error e)
         | Except.ok _ =>
             (Ev.validated vtt :: r.1
                ++ [Ev.constructedObj vtt, Ev.autoRegistered, Ev.registered reg.id],
              Except.ok ⟨vtt, reg.id, reg.owners, reg.is_pointer⟩))
      | none =>
        ((Ev.validated vtt ::
            (if vtt ∈ var_types then [Ev.constructedPlaceholder] else []))
           ++ [Ev.constructedObj vtt, Ev.autoRegistered, Ev.registered reg.id],
         Except.ok ⟨vtt, reg.id, reg.owners, reg.is_pointer⟩)

/-- A materialized tensor object (payload plus registration metadata). -/
structure TensorObj where
  ttype : String
  id : Nat
  tdata : List Int
  owners : List Nat
  deriving DecidableEq

/-- A torch variable: a tensor plus an optional gradient, itself a
variable. -/
inductive VarObj where
  | mk (id : Nat) (vdata : TensorObj) (grad : Option VarObj)
      (requires_grad : Bool) (volatile : Bool) (owners : List Nat)

/-- The `id` of a variable. -/
def varId : VarObj → Nat
  | VarObj.mk i _ _ _ _ _ => i

/-- The `data` tensor of a variable. -/
def varData : VarObj → TensorObj
  | VarObj.mk _ d _ _ _ _ => d

/-- The optional `grad` of a variable. -/
def varGrad : VarObj → Option VarObj
  | VarObj.mk _ _ g _ _ _ => g

/-- The wire message of a tensor (hook.py lines 974-987): `data` is
omitted when serializing a pointer. -/
structure TensorMsg where
  torch_type : String
  tdata : Option (List Int)
  id : Nat
  owners : List Nat
  is_pointer : Bool
  deriving DecidableEq

/-- The wire message of a variable (hook.py lines 1006-1025): tensor
fields plus `requires_grad`, `volatile`, the nested `data` message and the
optional nested `grad` message. -/
inductive VarMsg where
  | mk (torch_type : String) (requires_grad : Bool) (volatile : Bool)
      (dataMsg : TensorMsg) (gradMsg : Option VarMsg)
      (id : Nat) (owners : List Nat) (is_pointer : Bool)

/-- The `torch_type` field of a variable message. -/
def varMsgType : VarMsg → String
  | VarMsg.mk tt _ _ _ _ _ _ _ => tt

/-- The `id` field of a variable message. -/
def varMsgId : VarMsg → Nat
  | VarMsg.mk _ _ _ _ _ i _ _ => i

/-- The `owners` field of a variable message. -/
def varMsgOwners : VarMsg → List Nat
  | VarMsg.mk _ _ _ _ _ _ ow _ => ow

/-- The nested `data` message of a variable message. -/
def varMsgData : VarMsg → TensorMsg
  | VarMsg.mk _ _ _ dm _ _ _ _ => dm

/-- The nested `grad` message of a variable message. -/
def varMsgGrad : VarMsg → Option VarMsg
  | VarMsg.mk _ _ _ _ gm _ _ _ => gm

/-- Tensor `ser` (hook.py lines 974-987). -/
def tensor_ser (t : TensorObj) (include_data : Bool) : TensorMsg :=
  { torch_type := t.ttype,
    tdata := if include_data then some t.tdata else none,
    id := t.id, owners := t.owners, is_pointer := !include_data }

/-- Variable `ser` (hook.py lines 1006-1025): the class name is recorded as
the `torch_type`, and `data`/`grad` are serialized recursively. -/
def var_ser : VarObj → Bool → VarMsg
  | VarObj.mk i d g rg vol ow, include_data =>
      VarMsg.mk "torch.autograd.variable.Variable" rg vol (tensor_ser d include_data)
        (match g with
         | some gv => some (var_ser gv include_data)
         | none => none)
        i ow (!include_data)

/-- Tensor `deser` (hook.py lines 989-998): constructs a fresh,
auto-registered tensor from the message payload (or an empty one for a
pointer message).  The `tensor_contents_guard` of the missing guard module
is modelled from the spec as accepting any sequence of numbers. -/
def tensor_deser (cls : String) (m : TensorMsg) : List Ev × TensorObj :=
  ([Ev.constructedObj cls, Ev.autoRegistered],
   { ttype := cls, id := 0,
     tdata := (match m.tdata with
               | some d => d
               | none => []),
     owners := [0] })

/-- Modelled from the spec: `VirtualWorker.handle_register` (in
`syft.core.workers`, not under src/) registers a rehydrated object under
the id and owners carried by its wire message ("id ... stable across
transfer"; registry entries are created at deserialization time). -/
def handle_register_tensor (t : TensorObj) (m : TensorMsg) : List Ev × TensorObj :=
  ([Ev.registered m.id], { t with id := m.id, owners := m.owners })

/-- Sets a variable's registration attributes. -/
def setVarReg (v : VarObj) (i : Nat) (ow : List Nat) : VarObj :=
  match v with
  | VarObj.mk _ d g rg vol _ => VarObj.mk i d g rg vol ow

/-- Modelled from the spec: `handle_register` for a rehydrated variable,
assigning the serialized id and owners. -/
def handle_register_var (v : VarObj) (m : VarMsg) : List Ev × VarObj :=
  ([Ev.registered (varMsgId m)], setVarReg v (varMsgId m) (varMsgOwners m))

/-- `_build_var` (hook.py lines 1091-1113): deserializes and registers the
nested `data`, recursively builds and registers the nested `grad`, then
constructs the variable (auto-registered by the hooked `__new__`) and
attaches the grad.  The class name `cls` has been validated by the
caller. -/
def _build_var : String → VarMsg → List Ev × Except GuardErr VarObj
  | cls, VarMsg.mk _tt rg vol dm gm _i _ow _ip =>
    match types_guard dm.torch_type with
    | Except.error e => ([], Except.error e)
    | Except.ok dtt =>
      let p1 := tensor_deser dtt dm
      let p2 := handle_register_tensor p1.2 dm
      match gm with
      | some g =>
        match types_guard (varMsgType g) with
        | Except.error e => (Ev.validated dtt :: p1.1 ++ p2.1, Except.error e)
        | Except.ok gtt =>
          let p3 := _build_var gtt g
          match p3.2 with
          | Except.error e =>
              (Ev.validated dtt :: p1.1 ++ p2.1 ++ Ev.validated gtt :: p3.1,
               Except.error e)
          | Except.ok gObj =>
            let p4 := handle_register_var gObj g
            (Ev.validated dtt :: p1.1 ++ p2.1 ++ Ev.validated gtt :: p3.1 ++ p4.1
               ++ [Ev.constructedObj cls, Ev.autoRegistered, Ev.attachedGrad],
             Except.ok (VarObj.mk 0 p2.2 (some p4.2) rg vol [0]))
      | none =>
        (Ev.validated dtt :: p1.1 ++ p2.1
           ++ [Ev.constructedObj cls, Ev.autoRegistered, Ev.attachedNoGrad],
         Except.ok (VarObj.mk 0 p2.2 none rg vol [0]))

/-- Variable `deser` (hook.py lines 1027-1069): deserializes and registers
the nested `data` first, then validates and builds the nested `grad` via
`_build_var`, then constructs the parent variable (auto-registered by the
hooked `__new__`) and only afterwards attaches the grad with `setattr`. -/
def var_deser (cls : String) (m : VarMsg) : List Ev × Except GuardErr VarObj :=
  match m with
  | VarMsg.mk _tt rg vol dm gm _i _ow _ip =>
    match types_guard dm.torch_type with
    | Except.error e => ([], Except.error e)
    | Except.ok dtt =>
      let p1 := tensor_deser dtt dm
      let p2 := handle_register_tensor p1.2 dm
      match gm with
      | some g =>
        match types_guard (varMsgType g) with
        | Except.error e => (Ev.validated dtt :: p1.1 ++ p2.1, Except.error e)
        | Except.ok gtt =>
          let p3 := _build_var gtt g
          match p3.2 with
          | Except.error e =>
              (Ev.validated dtt :: p1.1 ++ p2.1 ++ Ev.validated gtt :: p3.1,
               Except.error e)
          | Except.ok gObj =>
            let p4 := handle_register_var gObj g
            (Ev.validated dtt :: p1.1 ++ p2.1 ++ Ev.validated gtt :: p3.1 ++ p4.1
               ++ [Ev.constructedObj cls, Ev.autoRegistered, Ev.attachedGrad],
             Except.ok (VarObj.mk 0 p2.2 (some p4.2) rg vol [0]))
      | none =>
        (Ev.validated dtt :: p1.1 ++ p2.1
           ++ [Ev.constructedObj cls, Ev.autoRegistered, Ev.attachedNoGrad],
         Except.ok (VarObj.mk 0 p2.2 none rg vol [0]))

/-- Modelled from the spec: the worker-side deserialization entry point
(in `syft.core.workers`, not under src/) validates the incoming message's
`torch_type` through the Type Guard, invokes `Variable.deser` on the
validated class, and registers the parent under the serialized id
("Deserialization always validates `torch_type` through the Type Guard
before construction"; "then the parent is registered"). -/
def deser_pipeline (m : VarMsg) : List Ev × Except GuardErr VarObj :=
  match types_guard (varMsgType m) with
  | Except.error e => ([], Except.error e)
  | Except.ok cls =>
    let p := var_deser cls m
    match p.2 with
    | Except.error e => (Ev.validated cls :: p.1, Except.error e)
    | Except.ok v =>
        (Ev.validated cls :: p.1 ++ [Ev.registered (varMsgId m)],
         Except.ok (setVarReg v (varMsgId m) (varMsgOwners m)))

/- ### send_ / get_ (hook.py lines 755-843; transport and registry
modelled from the spec) -/

/-- A tracked tensor as transferred by `send_`/`get_`. -/
structure WTensor where
  id : Nat
  wdata : List Int
  owners : List Nat
  is_pointer : Bool
  deriving DecidableEq

/-- The remote side of the world: which worker holds which object. -/
structure WorldState where
  remote : List (Nat × Nat × List Int)
  deriving DecidableEq

/-- The id of the distinguished local worker. -/
def localWorkerId : Nat := 0

/-- Modelled from the spec: `send_obj(worker, obj, delete_local)` of the
Transport Bridge (in `syft.core.workers`, not under src/) stores the
serialized object's payload at the destination worker. -/
def send_obj (st : WorldState) (w : Nat) (t : WTensor) : WorldState :=
  { remote := (w, t.id, t.wdata) :: st.remote }

/-- Modelled from the spec: `request_object(id, worker)` of the Transport
Bridge returns the authoritative payload held by `worker` for `id`. -/
def request_obj (st : WorldState) (objId : Nat) (w : Nat) : Option (List Int) :=
  (st.remote.find? (fun e => e.1 == w && e.2.1 == objId)).map (fun e => e.2.2)

/-- `send_` for tensors (hook.py lines 755-791): transmits the object,
zeroes the local payload (`old_set_(tensor_type(0))`) and re-registers the
local shell as a pointer owned by the destination worker. -/
def send_ (t : WTensor) (w : Nat) (st : WorldState) : WTensor × WorldState :=
  let st2 := send_obj st w t
  ({ id := t.id, wdata := [], owners := [w], is_pointer := true }, st2)

/-- Failures of `get_`: the `NotImplementedError` raised when the object
has more than one owner (the spec's `MultiOwnerNotSupportedError`), or a
transport failure when the owner does not hold the object. -/
inductive GetErr where
  | multiOwnerNotSupported
  | objectNotFound
  deriving DecidableEq

/-- `get_` for tensors (hook.py lines 793-843): asserts a single owner,
returns the object unchanged when locally owned, otherwise requests the
authoritative payload, copies it in place (`old_set_`) and re-registers
the object with the local worker as sole owner. -/
def get_ (t : WTensor) (st : WorldState) : Except GetErr WTensor :=
  match t.owners with
  | [w] =>
    if localWorkerId ∈ [w] then Except.ok t
    else
      match request_obj st t.id w with
      | none => Except.error GetErr.objectNotFound
      | some d =>
          Except.ok { id := t.id, wdata := d, owners := [localWorkerId], is_pointer := false }
  | _ => Except.error GetErr.multiOwnerNotSupported

/- ### Trace well-formedness checkers and concrete messages used by the
claims about guarded reconstruction -/

/-- Whether an `Except` result is a guard failure. -/
def errored {α : Type} : Except GuardErr α → Bool
  | Except.error _ => true
  | Except.ok _ => false

/-- The names validated by the guard along a trace, newest first,
starting from `seen`. -/
def seenAfter : List String → List Ev → List String
  | seen, [] => seen
  | seen, Ev.validated n :: rest => seenAfter (n :: seen) rest
  | seen, _ :: rest => seenAfter seen rest

/-- Scans a trace and checks that every reflective construction uses a
type name previously validated by the guard (relative to the names in
`seen`). -/
def constructionsGuarded : List String → List Ev → Bool
  | _, [] => true
  | seen, Ev.validated n :: rest => constructionsGuarded (n :: seen) rest
  | seen, Ev.constructedObj n :: rest =>
      decide (n ∈ seen) && constructionsGuarded seen rest
  | seen, _ :: rest => constructionsGuarded seen rest

/-- Whether a trace contains any object construction. -/
def hasConstruction (l : List Ev) : Bool :=
  l.any (fun e =>
    match e with
    | Ev.constructedObj _ => true
    | Ev.constructedPlaceholder => true
    | _ => false)

/-- Whether every type name along a response's `data` chain is in the
allow-list. -/
def ptrChainOk : PtrMsg → Bool
  | PtrMsg.mk tt vdata _ _ =>
      decide (tt ∈ allowed_types) &&
      (match vdata with
       | some dm => ptrChainOk dm
       | none => true)

/-- Whether the type names a variable message's deserialization will
actually use (the nested data's type and the grad chain, excluding the
parent's own name, which the caller validates) are all allowed. -/
def varMsgInnerTypesOk : VarMsg → Bool
  | VarMsg.mk _tt _ _ dm gm _ _ _ =>
      decide (dm.torch_type ∈ allowed_types) &&
      (match gm with
       | some g => decide (varMsgType g ∈ allowed_types) && varMsgInnerTypesOk g
       | none => true)

/-- Whether every type name in a variable message (including its own) is
in the allow-list. -/
def varMsgTypesOk (m : VarMsg) : Bool :=
  decide (varMsgType m ∈ allowed_types) && varMsgInnerTypesOk m

/-- A worker response whose type name is unknown. -/
def c4badPtrMsg : PtrMsg := PtrMsg.mk "EvilPtr" none none ⟨9, [1], true⟩

/-- A variable wire message with a valid parent and data type but an
unknown grad type name. -/
def c4badVarMsg : VarMsg :=
  VarMsg.mk "torch.autograd.variable.Variable" true false
    ⟨"torch.FloatTensor", some [1, 2], 6, [0], false⟩
    (some (VarMsg.mk "EvilType" false false
      ⟨"torch.FloatTensor", some [3], 8, [0], false⟩ none 7 [0] false))
    5 [0] false

/- ### Helper lemmas -/

/-- Dedup length is monotone under list inclusion. -/
theorem dedup_length_le_of_subset (l1 l2 : List Nat) (h : l1 ⊆ l2) :
    l1.dedup.length ≤ l2.dedup.length := by
  rw [← List.card_toFinset, ← List.card_toFinset]
  exact Finset.card_le_card (fun a ha =>
    List.mem_toFinset.2 (h (List.mem_toFinset.1 ha)))

/-- The pointer operands' owners are among all operands' owners. -/
theorem ptrOwners_subset_allOwners (c : CallSpec) :
    ((((tensorvarsOf c).filter (fun t => t.is_pointer)).map
        (fun t => t.owners)).flatten) ⊆
      (((tensorvarsOf c).map (fun t => t.owners)).flatten) := by
  intro a ha
  rcases List.mem_flatten.1 ha with ⟨s, hs, has⟩
  rcases List.mem_map.1 hs with ⟨t, htmem, rfl⟩
  exact List.mem_flatten.2 ⟨t.owners,
    List.mem_map.2 ⟨t, List.mem_of_mem_filter htmem, rfl⟩, has⟩

/-- `constructionsGuarded` splits over list append. -/
theorem constructionsGuarded_append (l1 l2 : List Ev) :
    ∀ seen : List String,
      constructionsGuarded seen (l1 ++ l2) =
        (constructionsGuarded seen l1 &&
          constructionsGuarded (seenAfter seen l1) l2) := by
  induction l1 with
  | nil => intro seen; simp [constructionsGuarded, seenAfter]
  | cons e rest ih =>
    intro seen
    cases e <;> simp [constructionsGuarded, seenAfter, ih, Bool.and_assoc]

/-- Validated names only accumulate. -/
theorem mem_seenAfter (l : List Ev) (x : String) :
    ∀ seen : List String, x ∈ seen → x ∈ seenAfter seen l := by
  induction l with
  | nil => intro seen hx; exact hx
  | cons e rest ih =>
    intro seen hx
    cases e with
    | validated n => exact ih (n :: seen) (List.mem_cons_of_mem n hx)
    | constructedObj n => exact ih seen hx
    | constructedPlaceholder => exact ih seen hx
    | autoRegistered => exact ih seen hx
    | registered i => exact ih seen hx
    | attachedGrad => exact ih seen hx
    | attachedNoGrad => exact ih seen hx

/-- Induction principle for `PtrMsg` exposing the nested `var_data`. -/
theorem ptrMsg_induction (P : PtrMsg → Prop)
    (h : ∀ tt vdata vgrad reg,
        (∀ dm, vdata = some dm → P dm) → P (PtrMsg.mk tt vdata vgrad reg)) :
    ∀ m, P m
  | PtrMsg.mk tt none vgrad reg =>
      h tt none vgrad reg (fun dm hdm => nomatch hdm)
  | PtrMsg.mk tt (some dm) vgrad reg =>
      h tt (some dm) vgrad reg (fun dm2 hdm2 =>
        Option.some_inj.1 hdm2 ▸ ptrMsg_induction P h dm)

/-- Induction principle for `VarMsg` exposing the nested `grad` message. -/
theorem varMsg_induction (P : VarMsg → Prop)
    (h : ∀ tt rg vol dm gm i ow ip,
        (∀ g, gm = some g → P g) → P (VarMsg.mk tt rg vol dm gm i ow ip)) :
    ∀ m, P m
  | VarMsg.mk tt rg vol dm none i ow ip =>
      h tt rg vol dm none i ow ip (fun g hg => nomatch hg)
  | VarMsg.mk tt rg vol dm (some g) i ow ip =>
      h tt rg vol dm (some g) i ow ip (fun g2 hg2 =>
        Option.some_inj.1 hg2 ▸ varMsg_induction P h g)

/-- Every construction performed by `_assemble_result_pointer` uses a
previously validated type name. -/
theorem assemble_guarded :
    ∀ m : PtrMsg, ∀ seen : List String,
      constructionsGuarded seen (_assemble_result_pointer m).1 = true := by
  apply ptrMsg_induction
  intro tt vdata vgrad reg ih seen
  by_cases hmem : tt ∈ allowed_types
  · cases vdata with
    | none =>
      by_cases hvt : tt ∈ var_types <;>
        simp [_assemble_result_pointer, types_guard, hmem, hvt, constructionsGuarded]
    | some dm =>
      cases hr : (_assemble_result_pointer dm).2 with
      | error e =>
        simp [_assemble_result_pointer, types_guard, hmem, hr,
              constructionsGuarded, ih dm rfl]
      | ok obj =>
        have h1 := ih dm rfl (tt :: seen)
        have h2 : tt ∈ seenAfter (tt :: seen) (_assemble_result_pointer dm).1 :=
          mem_seenAfter _ _ _ (List.mem_cons_self tt seen)
        simp [_assemble_result_pointer, types_guard, hmem, hr, constructionsGuarded,
              constructionsGuarded_append, h1, h2]
  · simp [_assemble_result_pointer, types_guard, hmem, constructionsGuarded]

/-- When `_assemble_result_pointer` fails, nothing at all has been
constructed: the guard rejection precedes every construction. -/
theorem assemble_error_no_construction :
    ∀ m : PtrMsg, ∀ e : GuardErr,
      (_assemble_result_pointer m).2 = Except.error e →
      hasConstruction (_assemble_result_pointer m).1 = false := by
  apply ptrMsg_induction
  intro tt vdata vgrad reg ih e herr
  by_cases hmem : tt ∈ allowed_types
  · cases vdata with
    | none =>
      exfalso
      by_cases hvt : tt ∈ var_types <;>
        simp [_assemble_result_pointer, types_guard, hmem, hvt] at herr
    | some dm =>
      cases hr : (_assemble_result_pointer dm).2 with
      | error e2 =>
        have hc := ih dm rfl e2 hr
        simp [_assemble_result_pointer, types_guard, hmem, hr, hasConstruction] at hc ⊢
        exact hc
      | ok obj =>
        exfalso
        simp [_assemble_result_pointer, types_guard, hmem, hr] at herr
  · simp [_assemble_result_pointer, types_guard, hmem, hasConstruction]

/-- An unknown type name anywhere in the chain makes
`_assemble_result_pointer` fail with the guard error. -/
theorem assemble_unknown_fails :
    ∀ m : PtrMsg, ptrChainOk m = false →
      errored (_assemble_result_pointer m).2 = true := by
  apply ptrMsg_induction
  intro tt vdata vgrad reg ih hbad
  by_cases hmem : tt ∈ allowed_types
  · cases vdata with
    | none => simp [ptrChainOk, hmem] at hbad
    | some dm =>
      have hbad2 : ptrChainOk dm = false := by
        simpa [ptrChainOk, hmem] using hbad
      have he := ih dm rfl hbad2
      cases hr : (_assemble_result_pointer dm).2 with
      | error e2 => simp [_assemble_result_pointer, types_guard, hmem, hr, errored]
      | ok obj => rw [hr] at he; simp [errored] at he
  · simp [_assemble_result_pointer, types_guard, hmem, errored]

/-- Every construction performed by `_build_var` uses a previously
validated type name (the class `cls` itself has been validated by the
caller). -/
theorem build_var_guarded :
    ∀ m : VarMsg, ∀ (cls : String) (seen : List String), cls ∈ seen →
      constructionsGuarded seen (_build_var cls m).1 = true := by
  apply varMsg_induction
  intro tt rg vol dm gm i ow ip ih cls seen hcls
  by_cases hd : dm.torch_type ∈ allowed_types
  · cases gm with
    | none =>
      simp [_build_var, types_guard, hd, tensor_deser, handle_register_tensor,
            constructionsGuarded, hcls]
    | some g =>
      by_cases hgt : varMsgType g ∈ allowed_types
      · have hg1 := ih g rfl (varMsgType g)
          (varMsgType g :: dm.torch_type :: seen) (List.mem_cons_self _ _)
        cases hr : (_build_var (varMsgType g) g).2 with
        | error e =>
          simp [_build_var, types_guard, hd, hgt, hr, tensor_deser,
                handle_register_tensor, constructionsGuarded, hg1]
        | ok gobj =>
          have h2 : cls ∈ seenAfter (varMsgType g :: dm.torch_type :: seen)
              (_build_var (varMsgType g) g).1 :=
            mem_seenAfter _ _ _
              (List.mem_cons_of_mem _ (List.mem_cons_of_mem _ hcls))
          simp [_build_var, types_guard, hd, hgt, hr, tensor_deser,
                handle_register_tensor, handle_register_var, constructionsGuarded,
                constructionsGuarded_append, seenAfter, hg1, h2]
      · simp [_build_var, types_guard, hd, hgt, tensor_deser,
              handle_register_tensor, constructionsGuarded]
  · simp [_build_var, types_guard, hd, constructionsGuarded]

/-- Every construction performed by `Variable.deser` uses a previously
validated type name. -/
theorem var_deser_guarded (m : VarMsg) (cls : String) (seen : List String)
    (hcls : cls ∈ seen) :
    constructionsGuarded seen (var_deser cls m).1 = true := by
  cases m with
  | mk tt rg vol dm gm i ow ip =>
    by_cases hd : dm.torch_type ∈ allowed_types
    · cases gm with
      | none =>
        simp [var_deser, types_guard, hd, tensor_deser, handle_register_tensor,
              constructionsGuarded, hcls]
      | some g =>
        by_cases hgt : varMsgType g ∈ allowed_types
        · have hg1 := build_var_guarded g (varMsgType g)
            (varMsgType g :: dm.torch_type :: seen) (List.mem_cons_self _ _)
          cases hr : (_build_var (varMsgType g) g).2 with
          | error e =>
            simp [var_deser, types_guard, hd, hgt, hr, tensor_deser,
                  handle_register_tensor, constructionsGuarded, hg1]
          | ok gobj =>
            have h2 : cls ∈ seenAfter (varMsgType g :: dm.torch_type :: seen)
                (_build_var (varMsgType g) g).1 :=
              mem_seenAfter _ _ _
                (List.mem_cons_of_mem _ (List.mem_cons_of_mem _ hcls))
            simp [var_deser, types_guard, hd, hgt, hr, tensor_deser,
                  handle_register_tensor, handle_register_var, constructionsGuarded,
                  constructionsGuarded_append, seenAfter, hg1, h2]
        · simp [var_deser, types_guard, hd, hgt, tensor_deser,
                handle_register_tensor, constructionsGuarded]
    · simp [var_deser, types_guard, hd, constructionsGuarded]

/-- Every construction performed by the full deserialization pipeline uses
a previously validated type name. -/
theorem deser_pipeline_guarded (m : VarMsg) :
    constructionsGuarded [] (deser_pipeline m).1 = true := by
  by_cases htt : varMsgType m ∈ allowed_types
  · have h1 := var_deser_guarded m (varMsgType m) [varMsgType m]
      (List.mem_cons_self _ _)
    cases hr : (var_deser (varMsgType m) m).2 with
    | error e =>
      simp [deser_pipeline, types_guard, htt, hr, constructionsGuarded, h1]
    | ok v =>
      simp [deser_pipeline, types_guard, htt, hr, constructionsGuarded,
            constructionsGuarded_append, h1]
  · simp [deser_pipeline, types_guard, htt, constructionsGuarded]

/-- An unknown type name among those used by `_build_var` makes it fail
with the guard error. -/
theorem build_var_unknown_fails :
    ∀ m : VarMsg, ∀ cls : String, varMsgInnerTypesOk m = false →
      errored (_build_var cls m).2 = true := by
  apply varMsg_induction
  intro tt rg vol dm gm i ow ip ih cls hbad
  by_cases hd : dm.torch_type ∈ allowed_types
  · cases gm with
    | none => simp [varMsgInnerTypesOk, hd] at hbad
    | some g =>
      by_cases hgt : varMsgType g ∈ allowed_types
      · have hbad2 : varMsgInnerTypesOk g = false := by
          simpa [varMsgInnerTypesOk, hd, hgt] using hbad
        have he := ih g rfl (varMsgType g) hbad2
        cases hr : (_build_var (varMsgType g) g).2 with
        | error e2 => simp [_build_var, types_guard, hd, hgt, hr, errored]
        | ok gobj => rw [hr] at he; simp [errored] at he
      · simp [_build_var, types_guard, hd, hgt, errored]
  · simp [_build_var, types_guard, hd, errored]

/-- An unknown type name among those used by `Variable.deser` makes it
fail with the guard error. -/
theorem var_deser_unknown_fails (m : VarMsg) (cls : String)
    (hbad : varMsgInnerTypesOk m = false) :
    errored (var_deser cls m).2 = true := by
  cases m with
  | mk tt rg vol dm gm i ow ip =>
    by_cases hd : dm.torch_type ∈ allowed_types
    · cases gm with
      | none => simp [varMsgInnerTypesOk, hd] at hbad
      | some g =>
        by_cases hgt : varMsgType g ∈ allowed_types
        · have hbad2 : varMsgInnerTypesOk g = false := by
            simpa [varMsgInnerTypesOk, hd, hgt] using hbad
          have he := build_var_unknown_fails g (varMsgType g) hbad2
          cases hr : (_build_var (varMsgType g) g).2 with
          | error e2 => simp [var_deser, types_guard, hd, hgt, hr, errored]
          | ok gobj => rw [hr] at he; simp [errored] at he
        · simp [var_deser, types_guard, hd, hgt, errored]
    · simp [var_deser, types_guard, hd, errored]

/-- An unknown type name anywhere in a variable message makes the full
deserialization pipeline fail with the guard error. -/
theorem deser_pipeline_unknown_fails (m : VarMsg)
    (hbad : varMsgTypesOk m = false) :
    errored (deser_pipeline m).2 = true := by
  by_cases htt : varMsgType m ∈ allowed_types
  · have hbad2 : varMsgInnerTypesOk m = false := by
      simpa [varMsgTypesOk, htt] using hbad
    have he := var_deser_unknown_fails m (varMsgType m) hbad2
    cases hr : (var_deser (varMsgType m) m).2 with
    | error e => simp [deser_pipeline, types_guard, htt, hr, errored]
    | ok v => rw [hr] at he; simp [errored] at he
  · simp [deser_pipeline, types_guard, htt, errored]

/- ### The claims -/

/-- C1 counterexample: a method call whose `self` is a local authoritative
value but whose argument is a pointer is executed locally by
`method_router`, although an operand discovered by the command compiler is
a pointer — refuting the claimed "local iff no operand is a pointer". -/
theorem C1_counterexample :
    isLocalRoute (method_router ⟨3, false, [0], false⟩ "add"
        [PyArg.tracked ⟨7, true, [1], false⟩] []).1 = true ∧
    hasRemoteOperand ⟨true, some ⟨3, false, [0], false⟩,
        [PyArg.tracked ⟨7, true, [1], false⟩], [], "add"⟩ = true :=
  ⟨rfl, rfl⟩

/-- C1 (amended): for torch-module function calls the router executes
locally exactly when no operand is a pointer; for method calls the router
inspects only `self` — it executes locally exactly when `self` is neither
a pointer nor fixed-precision, regardless of pointer arguments. -/
theorem C1_router_locality :
    (∀ (f : String) (args : List PyArg) (kwargs : List (String × PyArg)),
        isLocalRoute (function_router f args kwargs).1 = true ↔
          hasRemoteOperand ⟨false, none, args, kwargs, f⟩ = false) ∧
    (∀ (s : RTensor) (m : String) (args : List PyArg)
        (kwargs : List (String × PyArg)),
        isLocalRoute (method_router s m args kwargs).1 = true ↔
          (s.is_pointer = false ∧ s.fixed_precision = false)) := by
  constructor
  · intro f args kwargs
    unfold function_router _execute_remote_call
    cases hrem : hasRemoteOperand ⟨false, none, args, kwargs, f⟩ with
    | true =>
      cases hmul : decide (1 < (allOwners ⟨false, none, args, kwargs, f⟩).length) with
      | true => simp [hrem, hmul, isLocalRoute]
      | false =>
        cases hall : allOwners ⟨false, none, args, kwargs, f⟩ with
        | nil => simp [hrem, hmul, hall, isLocalRoute]
        | cons w rest =>
          have hrest : rest = [] := by
            rw [hall] at hmul
            simp at hmul
            cases rest with
            | nil => rfl
            | cons b bs => simp at hmul
          subst hrest
          simp [hrem, hmul, hall, isLocalRoute]
    | false =>
      simp [hrem, isLocalRoute]
  · intro s m args kwargs
    cases hp : s.is_pointer with
    | true =>
      have : isLocalRoute (method_router s m args kwargs).1 = false := by
        unfold method_router
        rw [hp]
        simp only [if_true]
        cases hr : (_execute_remote_call ⟨true, some s, args, kwargs, m⟩).1 with
        | error e => simp [isLocalRoute, hr, Except.map]
        | ok v => simp [isLocalRoute, hr, Except.map]
      simp [this, hp]
    | false =>
      cases hf : s.fixed_precision with
      | true => simp [method_router, hp, hf, isLocalRoute]
      | false => simp [method_router, hp, hf, isLocalRoute]

/-- C2 counterexample: a call whose pointer operands are owned solely by
worker 1 but which also carries a non-pointer operand owned by the local
worker 0.  The claim demands dispatch to worker 1; the code unions the
owners of ALL operands, treats the call as multi-owner, raises the
multi-party error and sends nothing. -/
theorem C2_counterexample :
    ptrOwners ⟨true, some ⟨3, false, [0], false⟩,
        [PyArg.tracked ⟨7, true, [1], false⟩], [], "add"⟩ = [1] ∧
    _execute_remote_call ⟨true, some ⟨3, false, [0], false⟩,
        [PyArg.tracked ⟨7, true, [1], false⟩], [], "add"⟩ =
      (Except.error RemoteErr.mpcNotImplemented, []) :=
  ⟨rfl, rfl⟩

/-- C2 (amended): the owner set used to decide routing is the union of the
owner sets of ALL operands, pointer or not; when that union is exactly one
worker and some operand is a pointer, the compiled command is sent to that
single worker (and to it only).  A non-pointer operand owned by the local
worker therefore CAN make a call multi-owner. -/
theorem C2_single_owner_dispatch (c : CallSpec) (w : Nat)
    (h1 : allOwners c = [w]) (h2 : hasRemoteOperand c = true) :
    _execute_remote_call c =
      (Except.ok (some (RemoteReply.reply w c.command), true, false),
       [TransportEvent.sentCommand w c.command]) := by
  simp [_execute_remote_call, h1, h2]

/-- Witness for C2: both operands are pointers owned by worker 1; the
command is dispatched to worker 1. -/
theorem C2_single_owner_dispatch_witness :
    allOwners ⟨true, some ⟨5, true, [1], false⟩,
        [PyArg.tracked ⟨6, true, [1], false⟩], [], "mul"⟩ = [1] ∧
    hasRemoteOperand ⟨true, some ⟨5, true, [1], false⟩,
        [PyArg.tracked ⟨6, true, [1], false⟩], [], "mul"⟩ = true ∧
    _execute_remote_call ⟨true, some ⟨5, true, [1], false⟩,
        [PyArg.tracked ⟨6, true, [1], false⟩], [], "mul"⟩ =
      (Except.ok (some (RemoteReply.reply 1 "mul"), true, false),
       [TransportEvent.sentCommand 1 "mul"]) :=
  ⟨rfl, rfl,
   C2_single_owner_dispatch ⟨true, some ⟨5, true, [1], false⟩,
     [PyArg.tracked ⟨6, true, [1], false⟩], [], "mul"⟩ 1 rfl rfl⟩

/-- C3: whenever the pointer operands of a call span more than one owner,
`_execute_remote_call` raises the multi-party error and performs no
transport send; moreover the call indeed has a remote operand. -/
theorem C3_multiparty_fails_without_send (c : CallSpec)
    (h : 1 < (ptrOwners c).length) :
    _execute_remote_call c = (Except.error RemoteErr.mpcNotImplemented, []) ∧
    hasRemoteOperand c = true := by
  have hsub := ptrOwners_subset_allOwners c
  have hle := dedup_length_le_of_subset _ _ hsub
  have hall : 1 < (allOwners c).length := by
    have := hle
    unfold ptrOwners at h
    unfold allOwners
    omega
  have hrem : hasRemoteOperand c = true := by
    have hne : ((((tensorvarsOf c).filter (fun t => t.is_pointer)).map
        (fun t => t.owners)).flatten) ≠ [] := by
      intro hnil
      unfold ptrOwners at h
      rw [hnil] at h
      simp [List.dedup] at h
    rcases List.exists_mem_of_ne_nil _ hne with ⟨a, ha⟩
    rcases List.mem_flatten.1 ha with ⟨s, hs, _⟩
    rcases List.mem_map.1 hs with ⟨t, htmem, rfl⟩
    exact List.any_eq_true.2 ⟨t, List.mem_of_mem_filter htmem,
      (List.mem_filter.1 htmem).2⟩
  refine ⟨?_, hrem⟩
  have hmul : decide (1 < (allOwners c).length) = true := by
    exact decide_eq_true hall
  simp [_execute_remote_call, hrem, hmul]

/-- Witness for C3: a call with two pointer operands owned by workers 1
and 2. -/
theorem C3_multiparty_fails_without_send_witness :
    1 < (ptrOwners ⟨true, some ⟨3, true, [1], false⟩,
          [PyArg.tracked ⟨7, true, [2], false⟩], [], "add"⟩).length ∧
    _execute_remote_call ⟨true, some ⟨3, true, [1], false⟩,
          [PyArg.tracked ⟨7, true, [2], false⟩], [], "add"⟩ =
        (Except.error RemoteErr.mpcNotImplemented, []) ∧
    hasRemoteOperand ⟨true, some ⟨3, true, [1], false⟩,
          [PyArg.tracked ⟨7, true, [2], false⟩], [], "add"⟩ = true :=
  ⟨by decide,
   C3_multiparty_fails_without_send ⟨true, some ⟨3, true, [1], false⟩,
     [PyArg.tracked ⟨7, true, [2], false⟩], [], "add"⟩ (by decide)⟩

/-- C4 counterexample: deserializing a variable whose nested data type is
valid but whose grad type name is unknown fails with the guard error, yet
an object (the data tensor) HAS been constructed and registered by the
time of the failure — refuting "fails ... without constructing any
object". -/
theorem C4_counterexample :
    errored (deser_pipeline c4badVarMsg).2 = true ∧
    hasConstruction (deser_pipeline c4badVarMsg).1 = true ∧
    Ev.registered 6 ∈ (deser_pipeline c4badVarMsg).1 :=
  ⟨rfl, rfl, by decide⟩

/-- C4 (amended): in pointer assembly and variable deserialization every
reflective construction uses a type name validated by the Type Guard
earlier in the same call, and an unknown type name anywhere makes the call
fail with the guard error; for `_assemble_result_pointer` the failure
additionally precedes every construction, but for variable
deserialization objects constructed from names validated earlier in the
message may already exist when the failure occurs. -/
theorem C4_typeguard_before_construction :
    (∀ m : PtrMsg, constructionsGuarded [] (_assemble_result_pointer m).1 = true) ∧
    (∀ (m : PtrMsg) (e : GuardErr),
        (_assemble_result_pointer m).2 = Except.error e →
        hasConstruction (_assemble_result_pointer m).1 = false) ∧
    (∀ m : PtrMsg, ptrChainOk m = false →
        errored (_assemble_result_pointer m).2 = true) ∧
    (∀ m : VarMsg, constructionsGuarded [] (deser_pipeline m).1 = true) ∧
    (∀ m : VarMsg, varMsgTypesOk m = false →
        errored (deser_pipeline m).2 = true) :=
  ⟨fun m => assemble_guarded m [], assemble_error_no_construction,
   assemble_unknown_fails, deser_pipeline_guarded, deser_pipeline_unknown_fails⟩

/-- Witness for C4 at concrete messages with unknown type names. -/
theorem C4_typeguard_before_construction_witness :
    ptrChainOk c4badPtrMsg = false ∧
    hasConstruction (_assemble_result_pointer c4badPtrMsg).1 = false ∧
    errored (_assemble_result_pointer c4badPtrMsg).2 = true ∧
    varMsgTypesOk c4badVarMsg = false ∧
    errored (deser_pipeline c4badVarMsg).2 = true :=
  ⟨rfl,
   C4_typeguard_before_construction.2.1 c4badPtrMsg
     (GuardErr.untrustedType "EvilPtr") rfl,
   C4_typeguard_before_construction.2.2.1 c4badPtrMsg rfl,
   rfl,
   C4_typeguard_before_construction.2.2.2.2 c4badVarMsg rfl⟩

/-- C5: for two fixed-precision operands with precisions `p1`, `p2`,
`fixed_prec_mul` fails with the overflow error exactly when `p1 + p2 > 17`;
otherwise it succeeds, the result is tagged fixed-precision, and its
precision is `p1` (left) by default or `p2` under right-precision
normalization. -/
theorem C5_mul_overflow_iff (t u : FPTensor) (p1 p2 : Nat) (nl : Bool)
    (ht : t.fixed_precision = some true) (hp1 : t.precision = some p1)
    (hu : u.fixed_precision = some true) (hp2 : u.precision = some p2) :
    (17 < p1 + p2 → fixed_prec_mul t u nl = Except.error FPError.overflow) ∧
    (p1 + p2 ≤ 17 →
      fixed_prec_mul t u nl = Except.ok
        { data := old_div_scalar (old_mul t.data u.data)
            ((10 : Int) ^ (if nl then p2 else p1)),
          fixed_precision := some true,
          precision := some (if nl then p1 else p2) }) := by
  constructor
  · intro h
    simp [fixed_prec_mul, getPrecision, ht, hu, hp1, hp2, h]
  · intro h
    have h2 : ¬ (p1 + p2 > 17) := by omega
    cases nl <;> simp [fixed_prec_mul, getPrecision, ht, hu, hp1, hp2, h2]

/-- Witness for C5 at concrete inputs on both sides of the threshold. -/
theorem C5_mul_overflow_iff_witness :
    fixed_prec_mul ⟨[3], some true, some 9⟩ ⟨[2], some true, some 9⟩ true =
        Except.error FPError.overflow ∧
    fixed_prec_mul ⟨[300], some true, some 1⟩ ⟨[20], some true, some 2⟩ true =
        Except.ok { data := [60], fixed_precision := some true, precision := some 1 } :=
  ⟨(C5_mul_overflow_iff _ _ 9 9 true rfl rfl rfl rfl).1 (by decide),
   (C5_mul_overflow_iff _ _ 1 2 true rfl rfl rfl rfl).2 (by decide)⟩

/-- C6: the claim that every mixed fixed/non-fixed operand pair raises the
dedicated mixed-operand error fails on the code: `fixed_prec_add`,
`fixed_prec_sub` and `fixed_prec_div` test `hasattr(self,
'fixed_precision')` twice instead of testing both operands, so a tagged
left operand with an untagged right operand enters the arithmetic branch
and dies on the attribute access `other.precision` with a generic
`AttributeError`; only `fixed_prec_mul` (both directions) and the mirrored
pairs reach the dedicated error. -/
theorem C6_mixed_operand_bug :
    fixed_prec_add ⟨[10], some true, some 1⟩ ⟨[2], none, none⟩ =
        Except.error (FPError.missingAttribute "precision") ∧
    fixed_prec_sub ⟨[10], some true, some 1⟩ ⟨[2], none, none⟩ =
        Except.error (FPError.missingAttribute "precision") ∧
    fixed_prec_div ⟨[10], some true, some 1⟩ ⟨[2], none, none⟩ =
        Except.error (FPError.missingAttribute "precision") ∧
    fixed_prec_mul ⟨[10], some true, some 1⟩ ⟨[2], none, none⟩ true =
        Except.error FPError.mixedOperands ∧
    fixed_prec_add ⟨[2], none, none⟩ ⟨[10], some true, some 1⟩ =
        Except.error FPError.mixedOperands :=
  ⟨rfl, rfl, rfl, rfl, rfl⟩

/-- C7: for two fixed-precision operands, `add` and `sub` rescale the
lower-precision operand up by `10 ^ (max p1 p2 - min p1 p2)` before the
integer operation and tag the result with precision `max p1 p2`, while
`div` rescales the operands to the common precision `max p1 p2` and tags
the result with precision 0. -/
theorem C7_addsubdiv_precision (t u : FPTensor) (p1 p2 : Nat)
    (ht : t.fixed_precision = some true) (hp1 : t.precision = some p1)
    (hu : u.fixed_precision = some true) (hp2 : u.precision = some p2) :
    fixed_prec_add t u = Except.ok
      { data := old_add (old_mul_scalar t.data ((10 : Int) ^ (max p1 p2 - p1)))
          (old_mul_scalar u.data ((10 : Int) ^ (max p1 p2 - p2))),
        fixed_precision := some true, precision := some (max p1 p2) } ∧
    fixed_prec_sub t u = Except.ok
      { data := old_sub (old_mul_scalar t.data ((10 : Int) ^ (max p1 p2 - p1)))
          (old_mul_scalar u.data ((10 : Int) ^ (max p1 p2 - p2))),
        fixed_precision := some true, precision := some (max p1 p2) } ∧
    fixed_prec_div t u = Except.ok
      { data := old_div (old_mul_scalar t.data ((10 : Int) ^ (max p1 p2 - p1)))
          (old_mul_scalar u.data ((10 : Int) ^ (max p1 p2 - p2))),
        fixed_precision := some true, precision := some 0 } := by
  rcases Nat.lt_trichotomy p1 p2 with h | h | h
  · have hmax : max p1 p2 = p2 := Nat.max_eq_right h.le
    have hgt : ¬ (p1 > p2) := by omega
    have hne : p1 ≠ p2 := by omega
    refine ⟨?_, ?_, ?_⟩ <;>
      simp [fixed_prec_add, fixed_prec_sub, fixed_prec_div, getPrecision,
            ht, hu, hp1, hp2, hgt, h, hne, hmax, Nat.sub_self,
            old_mul_scalar, pow_zero, mul_one, List.map_id']
  · subst h
    refine ⟨?_, ?_, ?_⟩ <;>
      simp [fixed_prec_add, fixed_prec_sub, fixed_prec_div, getPrecision,
            ht, hu, hp1, hp2, Nat.max_self, Nat.sub_self,
            old_mul_scalar, pow_zero, mul_one, List.map_id']
  · have hmax : max p1 p2 = p1 := Nat.max_eq_left h.le
    have hlt : ¬ (p1 < p2) := by omega
    have hne : p1 ≠ p2 := by omega
    refine ⟨?_, ?_, ?_⟩ <;>
      simp [fixed_prec_add, fixed_prec_sub, fixed_prec_div, getPrecision,
            ht, hu, hp1, hp2, hlt, h, hne, hmax, Nat.sub_self,
            old_mul_scalar, pow_zero, mul_one, List.map_id']

/-- Witness for C7 at concrete fixed-precision operands of precisions 1
and 2. -/
theorem C7_addsubdiv_precision_witness :
    fixed_prec_add ⟨[5], some true, some 1⟩ ⟨[25], some true, some 2⟩ =
        Except.ok { data := [75], fixed_precision := some true, precision := some 2 } ∧
    fixed_prec_sub ⟨[5], some true, some 1⟩ ⟨[25], some true, some 2⟩ =
        Except.ok { data := [25], fixed_precision := some true, precision := some 2 } ∧
    fixed_prec_div ⟨[5], some true, some 1⟩ ⟨[25], some true, some 2⟩ =
        Except.ok { data := [2], fixed_precision := some true, precision := some 0 } :=
  ⟨(C7_addsubdiv_precision ⟨[5], some true, some 1⟩ ⟨[25], some true, some 2⟩
      1 2 rfl rfl rfl rfl).1,
   (C7_addsubdiv_precision ⟨[5], some true, some 1⟩ ⟨[25], some true, some 2⟩
      1 2 rfl rfl rfl rfl).2.1,
   (C7_addsubdiv_precision ⟨[5], some true, some 1⟩ ⟨[25], some true, some 2⟩
      1 2 rfl rfl rfl rfl).2.2⟩

/-- C8: for a locally-owned authoritative tensor `v` and a single remote
destination worker `w`, `get_(send_(v, [w]))` round-trips: the retrieved
value's payload equals `v`'s pre-send payload and its owner set is exactly
the local worker again. -/
theorem C8_send_get_roundtrip (t : WTensor) (st : WorldState) (w : Nat)
    (hw : w ≠ localWorkerId)
    (hown : t.owners = [localWorkerId]) (hptr : t.is_pointer = false) :
    get_ (send_ t w st).1 (send_ t w st).2 =
      Except.ok { id := t.id, wdata := t.wdata, owners := [localWorkerId],
                  is_pointer := false } := by
  have hw0 : ¬ (localWorkerId = w) := fun h => hw h.symm
  simp [send_, send_obj, get_, request_obj, hw0, List.find?]

/-- Witness for C8: a concrete tensor sent to worker 1 and retrieved. -/
theorem C8_send_get_roundtrip_witness :
    get_ (send_ ⟨42, [1, 2, 3], [0], false⟩ 1 ⟨[]⟩).1
        (send_ ⟨42, [1, 2, 3], [0], false⟩ 1 ⟨[]⟩).2 =
      Except.ok { id := 42, wdata := [1, 2, 3], owners := [0], is_pointer := false } :=
  C8_send_get_roundtrip ⟨42, [1, 2, 3], [0], false⟩ ⟨[]⟩ 1 (by decide) rfl rfl

/-- C9: serializing a variable with a grad present and deserializing the
message produces this order of events — the nested data is deserialized
and registered first; then the parent variable is constructed and
(automatically) registered; only afterwards is the grad attached to the
parent; and the parent is finally re-registered under the serialized id,
so the rehydrated id equals the original one. -/
theorem C9_deser_order_and_id (v g : VarObj)
    (hg : varGrad v = some g) (hgg : varGrad g = none)
    (hd : (varData v).ttype ∈ allowed_types)
    (hgd : (varData g).ttype ∈ allowed_types) :
    (∃ pre : List Ev,
      (deser_pipeline (var_ser v true)).1 =
        pre ++ [Ev.constructedObj "torch.autograd.variable.Variable",
                Ev.autoRegistered, Ev.attachedGrad, Ev.registered (varId v)] ∧
      Ev.registered ((varData v).id) ∈ pre ∧
      Ev.attachedGrad ∉ pre) ∧
    ∃ v2, (deser_pipeline (var_ser v true)).2 = Except.ok v2 ∧
      varId v2 = varId v := by
  cases v with
  | mk i d gopt rg vol ow =>
    cases g with
    | mk gi gd ggopt grg gvol gow =>
      simp only [varGrad] at hg hgg
      subst hg
      subst hgg
      simp only [varData, varId] at hd hgd ⊢
      have hD : types_guard d.ttype = Except.ok d.ttype := by
        simp [types_guard, hd]
      have hG : types_guard gd.ttype = Except.ok gd.ttype := by
        simp [types_guard, hgd]
      have hV : types_guard "torch.autograd.variable.Variable" =
          Except.ok "torch.autograd.variable.Variable" := by
        simp [types_guard, allowed_types]
      refine ⟨⟨[Ev.validated "torch.autograd.variable.Variable",
                Ev.validated d.ttype, Ev.constructedObj d.ttype,
                Ev.autoRegistered, Ev.registered d.id,
                Ev.validated "torch.autograd.variable.Variable",
                Ev.validated gd.ttype, Ev.constructedObj gd.ttype,
                Ev.autoRegistered, Ev.registered gd.id,
                Ev.constructedObj "torch.autograd.variable.Variable",
                Ev.autoRegistered, Ev.attachedNoGrad, Ev.registered gi],
              ?_, ?_, ?_⟩, ?_⟩
      · simp [var_ser, tensor_ser, deser_pipeline, var_deser, _build_var,
              tensor_deser, handle_register_tensor, handle_register_var,
              setVarReg, varMsgType, varMsgId, varMsgOwners, hD, hG, hV]
      · simp
      · simp
      · refine ⟨VarObj.mk i
          ⟨d.ttype, d.id, d.tdata, d.owners⟩
          (some (VarObj.mk gi ⟨gd.ttype, gd.id, gd.tdata, gd.owners⟩
            none grg gvol gow)) rg vol ow, ?_, rfl⟩
        simp [var_ser, tensor_ser, deser_pipeline, var_deser, _build_var,
              tensor_deser, handle_register_tensor, handle_register_var,
              setVarReg, varMsgType, varMsgId, varMsgOwners, hD, hG, hV]

/-- Witness for C9 at a concrete variable with a grad present. -/
theorem C9_deser_order_and_id_witness :
    (∃ pre : List Ev,
      (deser_pipeline (var_ser
        (VarObj.mk 5 ⟨"torch.FloatTensor", 6, [1, 2], [0]⟩
          (some (VarObj.mk 7 ⟨"torch.FloatTensor", 8, [3], [0]⟩
            none false false [0])) true false [0]) true)).1 =
        pre ++ [Ev.constructedObj "torch.autograd.variable.Variable",
                Ev.autoRegistered, Ev.attachedGrad, Ev.registered 5] ∧
      Ev.registered 6 ∈ pre ∧
      Ev.attachedGrad ∉ pre) ∧
    ∃ v2, (deser_pipeline (var_ser
        (VarObj.mk 5 ⟨"torch.FloatTensor", 6, [1, 2], [0]⟩
          (some (VarObj.mk 7 ⟨"torch.FloatTensor", 8, [3], [0]⟩
            none false false [0])) true false [0]) true)).2 = Except.ok v2 ∧
      varId v2 = 5 :=
  C9_deser_order_and_id
    (VarObj.mk 5 ⟨"torch.FloatTensor", 6, [1, 2], [0]⟩
      (some (VarObj.mk 7 ⟨"torch.FloatTensor", 8, [3], [0]⟩
        none false false [0])) true false [0])
    (VarObj.mk 7 ⟨"torch.FloatTensor", 8, [3], [0]⟩ none false false [0])
    rfl rfl (by decide) (by decide)

/-- C10: `fixed_prec_trudiv` is the very same operation as
`fixed_prec_div` (hook.py line 436 assigns one to the other), and the
`'trudiv'` dispatch of `_execute_fixed_precision_call` performs exactly
the `'div'` computation. -/
theorem C10_trudiv_is_div :
    fixed_prec_trudiv = fixed_prec_div ∧
    ∀ (t u : FPTensor) (nl : Bool),
      _execute_fixed_precision_call t "trudiv" u nl =
        _execute_fixed_precision_call t "div" u nl :=
  ⟨rfl, fun _ _ _ => rfl⟩
